import Mathlib

/-!
Verification of the conversation-request and messaging subsystem of the
centrorum repository, as implemented by the client in
src/frontend/src/pages/Messaging.tsx and src/frontend/src/pages/Profile.tsx.

The embedding is shallow: React state is a record (MsgState), each handler
is a pure function from the api call results it awaits to the new state
together with the list of api calls it issues, and a rejected awaited call
is the Except.error case of its result.
-/

namespace Centrorum

/-- User record, from the type at Messaging.tsx lines 6-10
(id, optional encrypted id, display name). -/
structure User where
  id : Nat
  encrypted_id : Option String
  display_name : String
deriving Repr, DecidableEq

/-- Message record, from the type at Messaging.tsx lines 12-18. -/
structure Message where
  id : Nat
  sender : User
  content : String
  created_at : String
  read_at : Option String
deriving Repr, DecidableEq

/-- Conversation record, from the type at Messaging.tsx lines 20-29. -/
structure Conversation where
  id : Nat
  user1 : User
  user2 : User
  other_user : User
  last_message : Option Message
  unread_count : Nat
  created_at : String
  updated_at : String
deriving Repr, DecidableEq

/-- ConversationRequest record, from the type at Messaging.tsx lines 31-38. -/
structure ConversationRequest where
  id : Nat
  requester : User
  recipient : User
  status : String
  message : String
  created_at : String
deriving Repr, DecidableEq

/-- Active sidebar tab of the Messaging component (Messaging.tsx line 52). -/
inductive Tab where
  | conversations
  | requests
deriving Repr, DecidableEq

/-- Api calls the Messaging component can issue, one constructor per endpoint
used by the component. -/
inductive ApiCall where
  | getMessages (conversationId : Nat)
  | postMarkRead (conversationId : Nat)
  | getConversationList
  | getRequestList
  | postSend (conversationId : Nat) (content : String)
deriving Repr, DecidableEq

/-- Payload of a list endpoint as seen by the client: either a JSON array or
some non-array value. Array.isArray distinguishes the two. -/
inductive JsonData (α : Type) where
  | arr (items : List α)
  | notArr
deriving Repr, DecidableEq

/-- React state of the Messaging component, from the useState hooks at
Messaging.tsx lines 43-52. -/
structure MsgState where
  conversations : List Conversation
  conversationRequests : List ConversationRequest
  selectedConversation : Option Conversation
  messages : List Message
  newMessage : String
  loading : Bool
  loadingMessages : Bool
  sendingMessage : Bool
  error : String
  activeTab : Tab
deriving Repr, DecidableEq

/-- Try-block of fetchConversations (Messaging.tsx lines 55-57): await
api.get, then store the payload coerced through Array.isArray; a rejected
get propagates out of the block. -/
def fetchConversationsTry (r : Except Unit (JsonData Conversation)) (s : MsgState) :
    Except Unit MsgState :=
  match r with
  | Except.ok data =>
      Except.ok { s with conversations :=
        match data with
        | JsonData.arr items => items
        | JsonData.notArr => [] }
  | Except.error e => Except.error e

/-- Catch-block of fetchConversations (Messaging.tsx lines 58-61): set the
error string and reset the list to empty. -/
def fetchConversationsCatch (s : MsgState) : MsgState :=
  { s with error := "Failed to load conversations", conversations := [] }

/-- fetchConversations (Messaging.tsx lines 54-62): the try body with every
rejection handled by the catch, so the function always returns a state. -/
def fetchConversations (r : Except Unit (JsonData Conversation)) (s : MsgState) : MsgState :=
  match fetchConversationsTry r s with
  | Except.ok s2 => s2
  | Except.error _ => fetchConversationsCatch s

/-- Try-block of fetchConversationRequests (Messaging.tsx lines 65-67). -/
def fetchConversationRequestsTry (r : Except Unit (JsonData ConversationRequest))
    (s : MsgState) : Except Unit MsgState :=
  match r with
  | Except.ok data =>
      Except.ok { s with conversationRequests :=
        match data with
        | JsonData.arr items => items
        | JsonData.notArr => [] }
  | Except.error e => Except.error e

/-- Catch-block of fetchConversationRequests (Messaging.tsx lines 68-70):
only resets the list, sets no error string. -/
def fetchConversationRequestsCatch (s : MsgState) : MsgState :=
  { s with conversationRequests := [] }

/-- fetchConversationRequests (Messaging.tsx lines 64-71). -/
def fetchConversationRequests (r : Except Unit (JsonData ConversationRequest))
    (s : MsgState) : MsgState :=
  match fetchConversationRequestsTry r s with
  | Except.ok s2 => s2
  | Except.error _ => fetchConversationRequestsCatch s

/-- Sequence of api calls issued by fetchMessages (Messaging.tsx lines 73-85),
given which awaited calls resolve (env c = true) or reject (env c = false).
The GET of the messages is always issued; only if it resolves is the
mark-read POST issued; only if that resolves is fetchConversations awaited,
which always issues the conversation-list GET and swallows its own failure.
A rejection at any point jumps to the catch, issuing nothing further. -/
def fetchMessagesCalls (env : ApiCall → Bool) (conversationId : Nat) : List ApiCall :=
  if env (ApiCall.getMessages conversationId) then
    if env (ApiCall.postMarkRead conversationId) then
      [ApiCall.getMessages conversationId, ApiCall.postMarkRead conversationId,
       ApiCall.getConversationList]
    else
      [ApiCall.getMessages conversationId, ApiCall.postMarkRead conversationId]
  else
    [ApiCall.getMessages conversationId]

/-- Sequence of api calls issued by handleSelectConversation (Messaging.tsx
lines 111-115): after two synchronous state updates it awaits
fetchMessages on the clicked conversation, so its calls are exactly those
of fetchMessages. -/
def handleSelectConversationCalls (env : ApiCall → Bool) (conversation : Conversation) :
    List ApiCall :=
  fetchMessagesCalls env conversation.id

/-- Api calls issued by one tick of the 10-second interval callback
(Messaging.tsx lines 97-109): fetchConversations() always; then
fetchConversationRequests() exactly when the requests tab is active; then
fetchMessages(selectedConversation.id) exactly when a conversation is
selected. -/
def pollTickCalls (activeTab : Tab) (selectedConversation : Option Conversation)
    (env : ApiCall → Bool) : List ApiCall :=
  [ApiCall.getConversationList]
    ++ (if activeTab = Tab.requests then [ApiCall.getRequestList] else [])
    ++ (match selectedConversation with
        | some conversation => fetchMessagesCalls env conversation.id
        | none => [])

/-- Events of the polling loop: a timer tick, or the resolution of one
previously started conversation-list fetch. -/
inductive PollEvent where
  | tick
  | resolve
deriving Repr, DecidableEq

/-- In-flight count of poller-started conversation-list fetches. The source
installs a bare setInterval (Messaging.tsx lines 97-109) whose callback
invokes fetchConversations() unconditionally, without awaiting it and
without consulting any in-flight flag, so every tick starts one more fetch;
a resolve event completes one. There is no skip branch and no cancellation
of the prior fetch anywhere in the component. -/
def pollStep (inFlight : Nat) : PollEvent → Nat
  | PollEvent.tick => inFlight + 1
  | PollEvent.resolve => inFlight - 1

/-- In-flight conversation-list fetch count after a sequence of poll events,
starting from none in flight. -/
def pollInFlight (events : List PollEvent) : Nat :=
  events.foldl pollStep 0

/-- Received requests shown in the Requests view (Messaging.tsx lines
426-428): requests whose recipient is the current user and whose status is
pending. The state field is always an array in the embedding, so the
Array.isArray guard of the source is identically true here. -/
def receivedRequests (currentUser : User) (conversationRequests : List ConversationRequest) :
    List ConversationRequest :=
  conversationRequests.filter fun req =>
    req.recipient.id == currentUser.id && req.status == "pending"

/-- Sent requests shown in the Requests view (Messaging.tsx lines 429-431):
requests whose requester is the current user and whose status is not
accepted. -/
def sentRequests (currentUser : User) (conversationRequests : List ConversationRequest) :
    List ConversationRequest :=
  conversationRequests.filter fun req =>
    req.requester.id == currentUser.id && req.status != "accepted"

/-- Pending-received badge count on the Requests tab (Messaging.tsx lines
292-296), computed with the same filter as the received list. -/
def pendingReceivedCount (currentUser : User)
    (conversationRequests : List ConversationRequest) : Nat :=
  (conversationRequests.filter fun req =>
    req.recipient.id == currentUser.id && req.status == "pending").length

/-- ECMAScript whitespace: the WhiteSpace and LineTerminator code points
trimmed by String.prototype.trim, which the source applies as
newMessage.trim(). -/
def jsWhitespaceChar (c : Char) : Bool :=
  let n := c.toNat
  n == 0x09 || n == 0x0A || n == 0x0B || n == 0x0C || n == 0x0D || n == 0x20 ||
  n == 0xA0 || n == 0x1680 || (0x2000 <= n && n <= 0x200A) || n == 0x2028 ||
  n == 0x2029 || n == 0x202F || n == 0x205F || n == 0x3000 || n == 0xFEFF

/-- JavaScript String.prototype.trim: drop leading and trailing whitespace
code points. -/
def jsTrim (s : String) : String :=
  String.mk (((s.data.dropWhile jsWhitespaceChar).reverse.dropWhile jsWhitespaceChar).reverse)

/-- handleSendMessage (Messaging.tsx lines 117-134). Guard: return at once
when no conversation is selected or the draft trims to empty (JS string
truthiness). Otherwise set sendingMessage, POST the trimmed content; on a
resolved POST append the returned message to the local list, clear the
draft and await fetchConversations (which issues the conversation-list GET
and handles its own failure); on a rejected POST set the error string and
leave messages and draft untouched; finally clear sendingMessage. The
result pairs the new state with the api calls issued. -/
def handleSendMessage (sendResult : Except Unit Message)
    (convsResult : Except Unit (JsonData Conversation)) (s : MsgState) :
    MsgState × List ApiCall :=
  match s.selectedConversation with
  | none => (s, [])
  | some selectedConversation =>
    if jsTrim s.newMessage = "" then (s, [])
    else
      let s1 := { s with sendingMessage := true }
      match sendResult with
      | Except.ok response =>
          let s2 := { s1 with messages := s1.messages ++ [response], newMessage := "" }
          let s3 := fetchConversations convsResult s2
          ({ s3 with sendingMessage := false },
           [ApiCall.postSend selectedConversation.id (jsTrim s.newMessage),
            ApiCall.getConversationList])
      | Except.error _ =>
          ({ s1 with error := "Failed to send message", sendingMessage := false },
           [ApiCall.postSend selectedConversation.id (jsTrim s.newMessage)])

/-- Predicate of the existing-conversation lookup in handleStartConversation
(Profile.tsx lines 213-216): the conversation joins the target and the
current user in either participant order. -/
def conversationPairMatch (currentUserId targetUserId : Nat) (conv : Conversation) : Bool :=
  (conv.user1.id == targetUserId && conv.user2.id == currentUserId) ||
  (conv.user2.id == targetUserId && conv.user1.id == currentUserId)

/-- Predicate of the existing-request lookup in handleStartConversation
(Profile.tsx lines 225-230): a request between the current user and the
target in either direction, any status. -/
def requestPairMatch (currentUserId targetUserId : Nat) (req : ConversationRequest) : Bool :=
  (req.requester.id == currentUserId && req.recipient.id == targetUserId) ||
  (req.recipient.id == currentUserId && req.requester.id == targetUserId)

/-- Outcome of handleStartConversation in Profile.tsx: navigate to a route,
show a transient conflict error, open the request-creation dialog, or show
the catch-block fetch error. -/
inductive StartConversationOutcome where
  | navigateTo (route : String)
  | conflictError (message : String)
  | openDialog
  | fetchError (message : String)
deriving Repr, DecidableEq

/-- Catch-block error text of handleStartConversation (Profile.tsx lines
243-248): the error field of the server response when present and truthy,
else the fallback text. -/
def startConversationCatch (serverError : Option String) : String :=
  match serverError with
  | some m => if m = "" then "Failed to check conversations" else m
  | none => "Failed to check conversations"

/-- handleStartConversation (Profile.tsx lines 205-249), after the non-null
guard on profileData and currentUser. It awaits the conversation list; if a
conversation with the target exists (either participant order) it navigates
to the messaging view and returns. Otherwise it awaits the request list; if
the first request between the pair is pending it shows one of two conflict
messages, chosen by who the requester is, and returns. Otherwise it opens
the request-creation dialog. A rejected GET lands in the catch. -/
def handleStartConversation (currentUser : User) (targetUser : User)
    (conversationsResult : Except (Option String) (List Conversation))
    (requestsResult : Except (Option String) (List ConversationRequest)) :
    StartConversationOutcome :=
  match conversationsResult with
  | Except.error e => StartConversationOutcome.fetchError (startConversationCatch e)
  | Except.ok conversations =>
    let targetUserId := targetUser.id
    match conversations.find? (conversationPairMatch currentUser.id targetUserId) with
    | some _ => StartConversationOutcome.navigateTo "/messaging"
    | none =>
      match requestsResult with
      | Except.error e => StartConversationOutcome.fetchError (startConversationCatch e)
      | Except.ok requests =>
        match requests.find? (requestPairMatch currentUser.id targetUserId) with
        | some existingRequest =>
            if existingRequest.status == "pending" then
              if existingRequest.requester.id == currentUser.id then
                StartConversationOutcome.conflictError
                  "You already have a pending request with this user"
              else
                StartConversationOutcome.conflictError
                  "This user already sent you a request. Check your Messages."
            else StartConversationOutcome.openDialog
        | none => StartConversationOutcome.openDialog

/-! Sample fixtures used by the witness theorems. -/

/-- Sample user with id 1. -/
def uA : User := { id := 1, encrypted_id := none, display_name := "A" }

/-- Sample user with id 2. -/
def uB : User := { id := 2, encrypted_id := none, display_name := "B" }

/-- Sample pending request from uA to uB. -/
def pendAB : ConversationRequest :=
  { id := 10, requester := uA, recipient := uB, status := "pending",
    message := "hi", created_at := "t0" }

/-- Sample accepted request from uA to uB. -/
def accAB : ConversationRequest :=
  { id := 11, requester := uA, recipient := uB, status := "accepted",
    message := "hi", created_at := "t0" }

/-- Sample conversation between uB (user1) and uA (user2). -/
def convBA : Conversation :=
  { id := 5, user1 := uB, user2 := uA, other_user := uB, last_message := none,
    unread_count := 0, created_at := "t0", updated_at := "t0" }

/-- Sample message sent by uA. -/
def msgA : Message :=
  { id := 100, sender := uA, content := "hi", created_at := "t1", read_at := none }

/-- Sample Messaging state: conversation convBA open, draft " hi ". -/
def s0 : MsgState :=
  { conversations := [convBA], conversationRequests := [], selectedConversation := some convBA,
    messages := [], newMessage := " hi ", loading := false, loadingMessages := false,
    sendingMessage := false, error := "", activeTab := Tab.conversations }

/-! Helper lemmas about the fetchMessages call trace. -/

/-- Every call issued by fetchMessages is one of the three endpoints it uses. -/
lemma mem_fetchMessagesCalls_cases (env : ApiCall → Bool) (cid : Nat) (c : ApiCall)
    (h : c ∈ fetchMessagesCalls env cid) :
    c = ApiCall.getMessages cid ∨ c = ApiCall.postMarkRead cid ∨
    c = ApiCall.getConversationList := by
  cases h1 : env (ApiCall.getMessages cid) <;>
    cases h2 : env (ApiCall.postMarkRead cid) <;>
    simp [fetchMessagesCalls, h1, h2] at h <;> tauto

/-- fetchMessages always issues the GET of the messages of its conversation. -/
lemma getMessages_mem_fetchMessagesCalls (env : ApiCall → Bool) (cid : Nat) :
    ApiCall.getMessages cid ∈ fetchMessagesCalls env cid := by
  cases h1 : env (ApiCall.getMessages cid) <;>
    cases h2 : env (ApiCall.postMarkRead cid) <;>
    simp [fetchMessagesCalls, h1, h2]

/-- C1: opening a conversation (handleSelectConversation, or the refresh of an
open conversation, both of which run fetchMessages) issues, when every call
resolves, exactly the sequence GET messages, POST mark-read, GET conversation
list, in that order; and in every outcome the conversation-list re-fetch
occurs only in that full sequence, hence never before the mark-read call. -/
theorem c1_open_sequence (env : ApiCall → Bool) (cid : Nat) :
    (env (ApiCall.getMessages cid) = true → env (ApiCall.postMarkRead cid) = true →
      fetchMessagesCalls env cid =
        [ApiCall.getMessages cid, ApiCall.postMarkRead cid, ApiCall.getConversationList])
    ∧ (ApiCall.getConversationList ∈ fetchMessagesCalls env cid →
      fetchMessagesCalls env cid =
        [ApiCall.getMessages cid, ApiCall.postMarkRead cid, ApiCall.getConversationList])
    ∧ (∀ conversation : Conversation,
        handleSelectConversationCalls env conversation = fetchMessagesCalls env conversation.id) := by
  refine ⟨fun h1 h2 => by simp [fetchMessagesCalls, h1, h2], ?_, fun _ => rfl⟩
  intro hmem
  cases h1 : env (ApiCall.getMessages cid) <;>
    cases h2 : env (ApiCall.postMarkRead cid) <;>
    simp [fetchMessagesCalls, h1, h2] at hmem ⊢

/-- Witness for C1 at a concrete environment where every call resolves. -/
theorem c1_open_sequence_witness :
    fetchMessagesCalls (fun _ => true) 5 =
      [ApiCall.getMessages 5, ApiCall.postMarkRead 5, ApiCall.getConversationList] :=
  (c1_open_sequence (fun _ => true) 5).1 rfl rfl

/-- C2: the Requests view partitions the request list for a viewer into
received = exactly the requests with recipient id the viewer and status
pending, and sent = exactly the requests with requester id the viewer and
status not accepted, so an accepted request never appears in the sent list. -/
theorem c2_request_partition (u : User) (reqs : List ConversationRequest)
    (r : ConversationRequest) :
    (r ∈ receivedRequests u reqs ↔ r ∈ reqs ∧ r.recipient.id = u.id ∧ r.status = "pending")
    ∧ (r ∈ sentRequests u reqs ↔ r ∈ reqs ∧ r.requester.id = u.id ∧ r.status ≠ "accepted")
    ∧ (r.status = "accepted" → r ∉ sentRequests u reqs) := by
  have hrecv : r ∈ receivedRequests u reqs ↔
      r ∈ reqs ∧ r.recipient.id = u.id ∧ r.status = "pending" := by
    simp [receivedRequests, List.mem_filter, and_assoc]
  have hsent : r ∈ sentRequests u reqs ↔
      r ∈ reqs ∧ r.requester.id = u.id ∧ r.status ≠ "accepted" := by
    simp [sentRequests, List.mem_filter, and_assoc]
  exact ⟨hrecv, hsent, fun hacc hmem => ((hsent.mp hmem).2.2 hacc)⟩

/-- Witness for C2: a concretely accepted request is absent from the sent list. -/
theorem c2_request_partition_witness : accAB ∉ sentRequests uA [accAB] :=
  (c2_request_partition uA [accAB] accAB).2.2 rfl

/-- C3: every interval tick re-fetches the conversation list; it re-fetches
the request list iff the Requests tab is active; and it re-fetches the open
conversation messages iff a conversation is selected. -/
theorem c3_poll_tick (activeTab : Tab) (sel : Option Conversation) (env : ApiCall → Bool) :
    ApiCall.getConversationList ∈ pollTickCalls activeTab sel env
    ∧ (ApiCall.getRequestList ∈ pollTickCalls activeTab sel env ↔ activeTab = Tab.requests)
    ∧ ((∃ cid, ApiCall.getMessages cid ∈ pollTickCalls activeTab sel env) ↔ sel.isSome)
    ∧ (∀ conversation, sel = some conversation →
        ApiCall.getMessages conversation.id ∈ pollTickCalls activeTab sel env) := by
  refine ⟨?_, ?_, ?_, ?_⟩
  · cases sel <;> simp [pollTickCalls]
  · cases sel with
    | none => cases activeTab <;> simp [pollTickCalls]
    | some conversation =>
        cases activeTab with
        | conversations =>
            simp [pollTickCalls]
            intro h
            rcases mem_fetchMessagesCalls_cases env conversation.id _ h with h2 | h2 | h2 <;>
              simp at h2
        | requests => simp [pollTickCalls]
  · cases sel with
    | none => cases activeTab <;> simp [pollTickCalls]
    | some conversation =>
        simp only [Option.isSome_some, iff_true]
        exact ⟨conversation.id, by
          cases activeTab <;> simp [pollTickCalls] <;>
            exact getMessages_mem_fetchMessagesCalls env conversation.id⟩
  · rintro conversation rfl
    cases activeTab <;> simp [pollTickCalls] <;>
      exact getMessages_mem_fetchMessagesCalls env conversation.id

/-- Witness for C3: with a conversation open, the tick re-fetches its messages. -/
theorem c3_poll_tick_witness :
    ApiCall.getMessages convBA.id ∈
      pollTickCalls Tab.conversations (some convBA) (fun _ => true) :=
  (c3_poll_tick Tab.conversations (some convBA) (fun _ => true)).2.2.2 convBA rfl

/-- In-flight count after n consecutive ticks with no resolution, from any start. -/
lemma pollStep_foldl_replicate (n k : Nat) :
    List.foldl pollStep k (List.replicate n PollEvent.tick) = k + n := by
  induction n generalizing k with
  | zero => simp [List.replicate]
  | succ m ih => simp [List.replicate, pollStep, ih]; omega

/-- C4: evaluation of the polling loop at the failing schedule. The interval
callback starts a fetch unconditionally on every tick with no in-flight
check, so after one tick one fetch is in flight, a second tick starts
another while the first is still unresolved, and n unresolved ticks leave n
overlapping fetches in flight — there is no skip-a-tick and no
cancel-and-restart policy bounding the pile-up. -/
theorem c4_overlap :
    pollInFlight [PollEvent.tick] = 1
    ∧ pollInFlight [PollEvent.tick, PollEvent.tick] = 2
    ∧ ∀ n, pollInFlight (List.replicate n PollEvent.tick) = n := by
  refine ⟨rfl, rfl, fun n => ?_⟩
  simpa using pollStep_foldl_replicate n 0

/-- C5: a failed poll fetch is swallowed by the catch block: the fetch
function still returns an ordinary state in which at most a transient UI
error string is set (fetchConversations sets one, fetchConversationRequests
sets none) and the list is reset, and a later tick of the loop issues the
conversation-list fetch again. -/
theorem c5_poll_failure_swallowed (e e2 : Unit) (s : MsgState) :
    fetchConversations (Except.error e) s =
      { s with error := "Failed to load conversations", conversations := [] }
    ∧ fetchConversationRequests (Except.error e2) s = { s with conversationRequests := [] }
    ∧ (∀ r, (fetchConversationsTry r s).isOk = false →
        fetchConversations r s = fetchConversationsCatch s)
    ∧ (∀ activeTab sel env, ApiCall.getConversationList ∈ pollTickCalls activeTab sel env) := by
  refine ⟨rfl, rfl, fun r h => ?_, fun activeTab sel env => ?_⟩
  · cases hr : fetchConversationsTry r s with
    | ok s2 => rw [hr] at h; simp [Except.isOk, Except.toBool] at h
    | error e3 => simp [fetchConversations, hr]
  · cases sel <;> simp [pollTickCalls]

/-- Witness for C5: a rejected conversation-list fetch at the sample state is
handled by the catch block. -/
theorem c5_poll_failure_swallowed_witness :
    fetchConversations (Except.error ()) s0 = fetchConversationsCatch s0 :=
  (c5_poll_failure_swallowed () () s0).2.2.1 (Except.error ()) rfl

/-- C6: when the start-conversation flow finds an existing request between
the viewer and the target whose status is pending, it reports a conflict
with one message when the viewer is the requester and a different message
directing the viewer to their inbox when the target is the requester, the
two messages differ, and the request-creation dialog is not opened. -/
theorem c6_pending_conflict (currentUser targetUser : User) (convs : List Conversation)
    (reqs : List ConversationRequest) (r : ConversationRequest)
    (hconv : convs.find? (conversationPairMatch currentUser.id targetUser.id) = none)
    (hreq : reqs.find? (requestPairMatch currentUser.id targetUser.id) = some r)
    (hp : r.status = "pending") :
    (r.requester.id = currentUser.id →
      handleStartConversation currentUser targetUser (Except.ok convs) (Except.ok reqs) =
        StartConversationOutcome.conflictError
          "You already have a pending request with this user")
    ∧ (r.requester.id ≠ currentUser.id →
      handleStartConversation currentUser targetUser (Except.ok convs) (Except.ok reqs) =
        StartConversationOutcome.conflictError
          "This user already sent you a request. Check your Messages.")
    ∧ handleStartConversation currentUser targetUser (Except.ok convs) (Except.ok reqs) ≠
        StartConversationOutcome.openDialog
    ∧ ("You already have a pending request with this user" : String) ≠
        "This user already sent you a request. Check your Messages." := by
  have key : handleStartConversation currentUser targetUser (Except.ok convs) (Except.ok reqs) =
      if r.requester.id = currentUser.id then
        StartConversationOutcome.conflictError
          "You already have a pending request with this user"
      else
        StartConversationOutcome.conflictError
          "This user already sent you a request. Check your Messages." := by
    simp [handleStartConversation, hconv, hreq, hp]
  by_cases hid : r.requester.id = currentUser.id
  · exact ⟨fun _ => by simp [key, hid], fun h => absurd hid h, by simp [key, hid], by decide⟩
  · exact ⟨fun h => absurd h hid, fun _ => by simp [key, hid], by simp [key, hid], by decide⟩

/-- Witness for C6 at a concrete pending request sent by the viewer. -/
theorem c6_pending_conflict_witness :
    handleStartConversation uA uB (Except.ok []) (Except.ok [pendAB]) =
      StartConversationOutcome.conflictError
        "You already have a pending request with this user" :=
  (c6_pending_conflict uA uB [] [pendAB] pendAB rfl rfl rfl).1 rfl

/-- C7: when a conversation whose unordered participant pair is the viewer
and the target already exists in the fetched list, in either stored order,
the flow navigates to the messaging view and does not open the
request-creation dialog (the request list is not even consulted: the result
is the same for every requestsResult). -/
theorem c7_existing_conversation (currentUser targetUser : User) (convs : List Conversation)
    (requestsResult : Except (Option String) (List ConversationRequest))
    (conv : Conversation) (hmem : conv ∈ convs)
    (hpair : (conv.user1.id = targetUser.id ∧ conv.user2.id = currentUser.id) ∨
             (conv.user2.id = targetUser.id ∧ conv.user1.id = currentUser.id)) :
    handleStartConversation currentUser targetUser (Except.ok convs) requestsResult =
      StartConversationOutcome.navigateTo "/messaging"
    ∧ handleStartConversation currentUser targetUser (Except.ok convs) requestsResult ≠
        StartConversationOutcome.openDialog := by
  have hp : conversationPairMatch currentUser.id targetUser.id conv = true := by
    simp [conversationPairMatch]
    tauto
  have hne : convs.find? (conversationPairMatch currentUser.id targetUser.id) ≠ none := by
    intro hnone
    exact absurd hp (by simpa using List.find?_eq_none.mp hnone conv hmem)
  obtain ⟨c, hc⟩ := Option.ne_none_iff_exists'.mp hne
  constructor <;> simp [handleStartConversation, hc]

/-- Witness for C7 at a concrete conversation stored as (target, viewer). -/
theorem c7_existing_conversation_witness :
    handleStartConversation uA uB (Except.ok [convBA]) (Except.ok []) =
      StartConversationOutcome.navigateTo "/messaging" :=
  (c7_existing_conversation uA uB [convBA] (Except.ok []) convBA (by simp)
    (Or.inl ⟨rfl, rfl⟩)).1

/-- C8: a send is never issued with content that is empty after trimming:
when the draft trims to empty, handleSendMessage issues no call and leaves
the state unchanged; every send call it ever issues carries exactly the
trimmed draft, which is then nonempty; and with a conversation open and a
nonempty trimmed draft the first call issued is the send of the trimmed
draft. -/
theorem c8_trimmed_send (sendResult : Except Unit Message)
    (convsResult : Except Unit (JsonData Conversation)) (s : MsgState) (conv : Conversation) :
    (jsTrim s.newMessage = "" → handleSendMessage sendResult convsResult s = (s, []))
    ∧ (∀ cid content,
        ApiCall.postSend cid content ∈ (handleSendMessage sendResult convsResult s).2 →
        content = jsTrim s.newMessage ∧ jsTrim s.newMessage ≠ "")
    ∧ (s.selectedConversation = some conv → jsTrim s.newMessage ≠ "" →
        (handleSendMessage sendResult convsResult s).2.head? =
          some (ApiCall.postSend conv.id (jsTrim s.newMessage))) := by
  refine ⟨?_, ?_, ?_⟩
  · intro hempty
    cases hsel : s.selectedConversation <;> simp [handleSendMessage, hsel, hempty]
  · intro cid content hmem
    cases hsel : s.selectedConversation with
    | none => simp [handleSendMessage, hsel] at hmem
    | some c =>
      by_cases hempty : jsTrim s.newMessage = ""
      · simp [handleSendMessage, hsel, hempty] at hmem
      · cases sendResult <;> simp [handleSendMessage, hsel, hempty] at hmem <;>
          exact ⟨hmem.2, hempty⟩
  · intro hsel hne
    cases sendResult <;> simp [handleSendMessage, hsel, hne]

/-- Witness for C8 at the sample state with draft " hi ". -/
theorem c8_trimmed_send_witness :
    (handleSendMessage (Except.ok msgA) (Except.ok (JsonData.arr [])) s0).2.head? =
      some (ApiCall.postSend convBA.id (jsTrim s0.newMessage)) :=
  (c8_trimmed_send (Except.ok msgA) (Except.ok (JsonData.arr [])) s0 convBA).2.2 rfl (by decide)

/-- fetchConversations leaves the local messages list unchanged. -/
lemma fetchConversations_messages (r : Except Unit (JsonData Conversation)) (s : MsgState) :
    (fetchConversations r s).messages = s.messages := by
  cases r with
  | ok d => cases d <;> simp [fetchConversations, fetchConversationsTry]
  | error e => simp [fetchConversations, fetchConversationsTry, fetchConversationsCatch]

/-- fetchConversations leaves the draft unchanged. -/
lemma fetchConversations_newMessage (r : Except Unit (JsonData Conversation)) (s : MsgState) :
    (fetchConversations r s).newMessage = s.newMessage := by
  cases r with
  | ok d => cases d <;> simp [fetchConversations, fetchConversationsTry]
  | error e => simp [fetchConversations, fetchConversationsTry, fetchConversationsCatch]

/-- C9: the client-side send is atomic with respect to failure: if the POST
rejects, the draft and the local messages list are unchanged; if it
resolves, the returned message is appended at the end of the local list and
the draft is cleared. -/
theorem c9_send_atomic (convsResult : Except Unit (JsonData Conversation)) (s : MsgState)
    (conv : Conversation) (m : Message)
    (hsel : s.selectedConversation = some conv) (hne : jsTrim s.newMessage ≠ "") :
    ((handleSendMessage (Except.error ()) convsResult s).1.newMessage = s.newMessage
     ∧ (handleSendMessage (Except.error ()) convsResult s).1.messages = s.messages)
    ∧ ((handleSendMessage (Except.ok m) convsResult s).1.messages = s.messages ++ [m]
       ∧ (handleSendMessage (Except.ok m) convsResult s).1.newMessage = "") := by
  refine ⟨⟨?_, ?_⟩, ?_, ?_⟩ <;>
    simp [handleSendMessage, hsel, hne, fetchConversations_messages,
      fetchConversations_newMessage]

/-- Witness for C9: the successful send at the sample state appends the
returned message. -/
theorem c9_send_atomic_witness :
    (handleSendMessage (Except.ok msgA) (Except.ok (JsonData.arr [])) s0).1.messages =
      s0.messages ++ [msgA] :=
  ((c9_send_atomic (Except.ok (JsonData.arr [])) s0 convBA msgA rfl (by decide)).2).1

/-- C10: a non-array payload on the conversation-list or request-list fetch
is coerced to the empty list in the corresponding state field, so the state
list the later operations (filter, map, length) run on is always an array. -/
theorem c10_nonarray_coerced (s : MsgState) :
    (fetchConversations (Except.ok JsonData.notArr) s).conversations = []
    ∧ (fetchConversationRequests (Except.ok JsonData.notArr) s).conversationRequests = [] :=
  ⟨rfl, rfl⟩

end Centrorum
